import Mathlib

/-!
A shallow embedding of the txkube network client (`src/txkube/_network.py`):
path construction for Kubernetes resources, response status checking, and
the per-operation request/response pipelines (`create`, `get`, `delete`,
`list`).  External collaborators of the client — JSON serialization
(`dumps`/`loads`), the serialized form of a domain object (`to_raw`), and
the object deserializer (`object_from_raw`) — are parameters of the
definitions that use them.  Deferred callback chains, in which any stage
may fail and a failure short-circuits every later stage, are embedded as
`Except` binds.
-/

namespace Txkube

/-- HTTP status code 200, `OK` from `twisted.web.http`. -/
def OK : Nat := 200

/-- HTTP status code 201, `CREATED` from `twisted.web.http`. -/
def CREATED : Nat := 201

/-- Object metadata: the identifying fields the client reads
(`obj.metadata.name`, `obj.metadata.namespace`).  The field `nspace`
stands for the `namespace` attribute, `none` for cluster-scoped objects
(Lean reserves the word itself). -/
structure Metadata where
  name : String
  nspace : Option String
  deriving DecidableEq

/-- A domain object (an `IObject` provider): its `kind`, its `metadata`,
and `rest`, which stands in for every other field of the object — the
client never reads those for addressing. -/
structure KObject where
  kind : String
  metadata : Metadata
  rest : List (String × String)
  deriving DecidableEq

/-- The argument of `collection_location`: either an actual object (an
`IObject` provider, recognised in the source by `IObject.providedBy`) or
a bare type representing a kind, which carries a `kind` attribute but no
metadata. -/
inductive Resource where
  | obj (o : KObject)
  | kindDesc (kind : String)
  deriving DecidableEq

/-- `obj.kind`, read uniformly off objects and bare kind descriptors. -/
def Resource.kind : Resource → String
  | .obj o => o.kind
  | .kindDesc k => k

/-- Python `str.lower` (`kind.lower()` in the source), applied
characterwise over the string. -/
def lower (s : String) : String :=
  ⟨s.data.map Char.toLower⟩

/-- `collection_location` (`_network.py` lines 196-225): the path
segments of the collection of objects like the one given. -/
def collection_location (obj : Resource) : List String :=
  let kind := obj.kind
  let collection := lower kind ++ "s"
  let nspace : Option String :=
    match obj with
    | .obj o => o.metadata.nspace
    | .kindDesc _ => none
  match nspace with
  | none => ["api", "v1", collection]
  | some ns => ["api", "v1", "namespaces", ns, collection]

/-- `object_location` (`_network.py` lines 183-192): the path segments
for one specific object. -/
def object_location (obj : KObject) : List String :=
  collection_location (.obj obj) ++ [obj.metadata.name]

/-- A URL, reduced to the part the client manipulates: its path
segments.  `twisted.python.url.URL`. -/
structure URL where
  segments : List String
  deriving DecidableEq

/-- `URL.child(*segs)`: append path segments. -/
def URL.child (u : URL) (segs : List String) : URL :=
  ⟨u.segments ++ segs⟩

/-- `_BytesProducer` (`_network.py` lines 42-62): an `IBodyProducer`
holding the full request body in memory as bytes. -/
structure BytesProducer where
  data : List Nat
  deriving DecidableEq

/-- The `length` property of `_BytesProducer`: the exact byte length of
the held data (never the unknown-length sentinel). -/
def BytesProducer.length (p : BytesProducer) : Nat :=
  p.data.length

/-- `_BytesProducer.startProducing`: writes the held data to the
consumer, in one step.  Modeled as the byte sequence written. -/
def BytesProducer.startProducing (p : BytesProducer) : List Nat :=
  p.data

/-- An HTTP request as `_NetworkClient._request` issues it: a method, a
URL, and an optional body producer. -/
structure Request where
  method : String
  url : URL
  bodyProducer : Option BytesProducer
  deriving DecidableEq

/-- An HTTP response, reduced to what the client reads: the status code
and the body bytes (kept as a string). -/
structure Response where
  code : Nat
  body : String
  deriving DecidableEq

/-- The failures a pipeline stage can produce: a `KubernetesError` built
from an unexpected response (`serverError`), a JSON parse failure of the
body (`decodeError`), or a schema mismatch in the external deserializer
(`schemaError`). -/
inductive KubeFailure where
  | serverError (code : Nat) (body : String)
  | decodeError (body : String)
  | schemaError (detail : String)
  deriving DecidableEq

/-- Modelled from the spec: `KubernetesError.from_response` lives in the
repository outside the provided sources; per the spec it constructs a
typed error capturing the status code and the response body. -/
def KubernetesError.from_response (response : Response) : KubeFailure :=
  .serverError response.code response.body

/-- `check_status` (`_network.py` lines 262-267): pass the response
through when its code is expected, otherwise fail with the error built
by `KubernetesError.from_response`. -/
def check_status (response : Response) (expected : List Nat) :
    Except KubeFailure Response :=
  if response.code ∉ expected then
    Except.error (KubernetesError.from_response response)
  else
    Except.ok response

/-- `readBody` from `twisted.web.client`, reduced to its result: the
full body bytes of the response. -/
def readBody (response : Response) : String :=
  response.body

/-- `log_response_object` (`_network.py` lines 246-259): log the parsed
document and return it unchanged. -/
def log_response_object {Raw : Type} (document : Raw) : Raw :=
  document

/-- The response-handling chain of `create` (`_network.py` lines
112-118): check for `CREATED`, read the body, parse it (`loads`), log
it, deserialize it (`object_from_raw`).  `loads` and `object_from_raw`
are external collaborators, each of which may fail. -/
def create_pipeline {Raw Obj : Type}
    (loads : String → Except KubeFailure Raw)
    (object_from_raw : Raw → Except KubeFailure Obj)
    (response : Response) : Except KubeFailure Obj :=
  Except.bind (check_status response [CREATED]) fun response =>
  Except.bind (loads (readBody response)) fun document =>
  object_from_raw (log_response_object document)

/-- The response-handling chain of `get` (`_network.py` lines 136-142):
check for `OK`, read the body, parse it, log it, deserialize it. -/
def get_pipeline {Raw Obj : Type}
    (loads : String → Except KubeFailure Raw)
    (object_from_raw : Raw → Except KubeFailure Obj)
    (response : Response) : Except KubeFailure Obj :=
  Except.bind (check_status response [OK]) fun response =>
  Except.bind (loads (readBody response)) fun document =>
  object_from_raw (log_response_object document)

/-- The response-handling chain of `delete` (`_network.py` lines
157-161): check for `OK`, read the body, drop it (`lambda raw: None`). -/
def delete_pipeline (response : Response) : Except KubeFailure Unit :=
  Except.bind (check_status response [OK]) fun response =>
  Except.bind (Except.ok (readBody response)) fun _raw =>
  Except.ok ()

/-- The response-handling chain of `list` (`_network.py` lines 174-179):
check for `OK`, read the body, parse it, deserialize it (no response
logging in this chain). -/
def list_pipeline {Raw Obj : Type}
    (loads : String → Except KubeFailure Raw)
    (object_from_raw : Raw → Except KubeFailure Obj)
    (response : Response) : Except KubeFailure Obj :=
  Except.bind (check_status response [OK]) fun response =>
  Except.bind (loads (readBody response)) fun document =>
  object_from_raw document

/-- The request `create` issues (`_network.py` lines 95-98 and 109-112):
a `POST` to the collection location of the object, with a
`_BytesProducer` holding `dumps(obj.to_raw())`.  `to_raw` and `dumps`
are external collaborators. -/
def create_request {Raw : Type} (to_raw : KObject → Raw)
    (dumps : Raw → List Nat) (base_url : URL) (obj : KObject) : Request :=
  { method := "POST",
    url := base_url.child (collection_location (.obj obj)),
    bodyProducer := some ⟨dumps (to_raw obj)⟩ }

/-- The request `get` issues (`_network.py` lines 87-88 and 135-136): a
`GET` to the object location, with no body. -/
def get_request (base_url : URL) (obj : KObject) : Request :=
  { method := "GET",
    url := base_url.child (object_location obj),
    bodyProducer := none }

/-- The request `delete` issues (`_network.py` lines 91-92 and 156-157):
a `DELETE` to the object location, with no body. -/
def delete_request (base_url : URL) (obj : KObject) : Request :=
  { method := "DELETE",
    url := base_url.child (object_location obj),
    bodyProducer := none }

/-- The request `list` issues (`_network.py` lines 173-174): a `GET` to
the collection location of the given kind, with no body. -/
def list_request (base_url : URL) (kind : Resource) : Request :=
  { method := "GET",
    url := base_url.child (collection_location kind),
    bodyProducer := none }

/-- The whole observable behaviour of one `get` call at a fixed server
response: the request it issues and the outcome it produces. -/
def get_op {Raw Obj : Type}
    (loads : String → Except KubeFailure Raw)
    (object_from_raw : Raw → Except KubeFailure Obj)
    (base_url : URL) (obj : KObject) (response : Response) :
    Request × Except KubeFailure Obj :=
  (get_request base_url obj, get_pipeline loads object_from_raw response)

/-- `_NetworkKubernetes` (`_network.py` lines 228-242): the base URL of
one deployment together with its connection agent.  The agent type is
abstract — the client only passes it along. -/
structure NetworkKubernetes (Agent : Type) where
  base_url : URL
  agent : Agent

/-- `_NetworkClient` (`_network.py` lines 66-72): a reference to the
endpoint and its agent. -/
structure NetworkClient (Agent : Type) where
  kubernetes : NetworkKubernetes Agent
  agent : Agent

/-- `_NetworkKubernetes.client` (`_network.py` lines 241-242): build a
`_NetworkClient` over this endpoint and its agent. -/
def NetworkKubernetes.client {Agent : Type} (k : NetworkKubernetes Agent) :
    NetworkClient Agent :=
  { kubernetes := k, agent := k.agent }

/-- C1: for every resource descriptor (full object or bare kind
descriptor) with kind `k` and a namespace `ns`, `collection_location`
returns `("api", "v1", "namespaces", ns, lower k ++ "s")`; for every
resource descriptor without a namespace — an object with no namespace or
any bare kind descriptor — it returns `("api", "v1", lower k ++ "s")`. -/
theorem collection_location_spec (o : KObject) (k : String) :
    (∀ ns, o.metadata.nspace = some ns →
      collection_location (.obj o) =
        ["api", "v1", "namespaces", ns, lower o.kind ++ "s"]) ∧
    (o.metadata.nspace = none →
      collection_location (.obj o) = ["api", "v1", lower o.kind ++ "s"]) ∧
    collection_location (.kindDesc k) = ["api", "v1", lower k ++ "s"] := by
  refine ⟨fun ns h => ?_, fun h => ?_, rfl⟩ <;>
    simp [collection_location, Resource.kind, h]

/-- Witness for C1 at concrete inputs. -/
theorem collection_location_spec_witness :
    collection_location (.obj ⟨"Pod", ⟨"p1", some "ns1"⟩, []⟩) =
      ["api", "v1", "namespaces", "ns1", "pods"] ∧
    collection_location (.obj ⟨"Node", ⟨"n1", none⟩, []⟩) =
      ["api", "v1", "nodes"] := by
  have h := (collection_location_spec ⟨"Pod", ⟨"p1", some "ns1"⟩, []⟩ "Pod").1
    "ns1" rfl
  have h2 := (collection_location_spec ⟨"Node", ⟨"n1", none⟩, []⟩ "Node").2.1 rfl
  have e1 : (lower "Pod" ++ "s" : String) = "pods" := by decide
  have e2 : (lower "Node" ++ "s" : String) = "nodes" := by decide
  rw [e1] at h
  rw [e2] at h2
  exact ⟨h, h2⟩

/-- C2: for every object carrying a `metadata.name`, `object_location`
equals `collection_location` of the object with the name appended as the
final path segment. -/
theorem object_location_spec (o : KObject) :
    object_location o = collection_location (.obj o) ++ [o.metadata.name] :=
  rfl

/-- C3: the only expected status for `create` is 201 (`CREATED`); a
response with any other code — 200 included — makes the pipeline fail
with the `KubernetesError` built from the response, never a decoded
object. -/
theorem create_non_created_is_server_error {Raw Obj : Type}
    (loads : String → Except KubeFailure Raw)
    (object_from_raw : Raw → Except KubeFailure Obj)
    (response : Response) (h : response.code ≠ CREATED) :
    create_pipeline loads object_from_raw response =
      Except.error (KubeFailure.serverError response.code response.body) := by
  have h2 : response.code ≠ 201 := by simpa [CREATED] using h
  simp [create_pipeline, check_status, KubernetesError.from_response,
    CREATED, Except.bind, h2]

/-- Witness for C3: a 200 response to `create` yields a server error. -/
theorem create_non_created_is_server_error_witness :
    create_pipeline (fun s => Except.ok s) (fun s => Except.ok s)
        ⟨200, "denied"⟩ =
      Except.error (KubeFailure.serverError 200 "denied") :=
  create_non_created_is_server_error (fun s => Except.ok s)
    (fun s => Except.ok s) ⟨200, "denied"⟩ (by decide)

/-- C4: if the response code is in the expected set, `check_status`
returns the response unchanged; otherwise it fails with the typed error
carrying the status code and the body, and any continuation bound after
it never runs — the chain stays at that error. -/
theorem check_status_spec {β : Type} (response : Response)
    (expected : List Nat) (k : Response → Except KubeFailure β) :
    (response.code ∈ expected →
      check_status response expected = Except.ok response) ∧
    (response.code ∉ expected →
      check_status response expected =
        Except.error (KubeFailure.serverError response.code response.body) ∧
      Except.bind (check_status response expected) k =
        Except.error (KubeFailure.serverError response.code response.body)) := by
  refine ⟨fun h => ?_, fun h => ?_⟩ <;>
    simp [check_status, KubernetesError.from_response, Except.bind, h]

/-- Witness for C4: 200 passes through a `(200)` expectation, 404 is
turned into a server error and the bound continuation never runs. -/
theorem check_status_spec_witness :
    check_status ⟨200, "b"⟩ [200] = Except.ok ⟨200, "b"⟩ ∧
    check_status ⟨404, "nf"⟩ [200] =
      Except.error (KubeFailure.serverError 404 "nf") ∧
    Except.bind (check_status ⟨404, "nf"⟩ [200])
        (fun r => Except.ok r.code) =
      Except.error (KubeFailure.serverError 404 "nf") := by
  refine ⟨(check_status_spec ⟨200, "b"⟩ [200] (fun r => Except.ok r.code)).1
    (by decide), ?_, ?_⟩
  · exact ((check_status_spec ⟨404, "nf"⟩ [200]
      (fun r => Except.ok r.code)).2 (by decide)).1
  · exact ((check_status_spec ⟨404, "nf"⟩ [200]
      (fun r => Except.ok r.code)).2 (by decide)).2

/-- C5: a `delete` whose response has status 200 produces nothing
(`Unit`): the body is read but discarded, so the result is the same for
every body content. -/
theorem delete_ok_result_none (response : Response) (h : response.code = OK) :
    delete_pipeline response = Except.ok () ∧
    ∀ b, delete_pipeline ⟨response.code, b⟩ = Except.ok () := by
  constructor
  · simp [delete_pipeline, check_status, Except.bind, OK, h]
  · intro b
    simp [delete_pipeline, check_status, Except.bind, OK, h]

/-- Witness for C5: deleting with a 200 response completes with no
result, whatever the body says. -/
theorem delete_ok_result_none_witness :
    delete_pipeline ⟨200, "ignored"⟩ = Except.ok () ∧
    delete_pipeline ⟨200, "other"⟩ = Except.ok () :=
  ⟨(delete_ok_result_none ⟨200, "ignored"⟩ rfl).1,
   (delete_ok_result_none ⟨200, "ignored"⟩ rfl).2 "other"⟩

/-- C6: `list` on a bare kind descriptor uses the un-namespaced
collection path, and that path is never of the namespaced shape. -/
theorem list_bare_kind_unnamespaced (base_url : URL) (k : String) :
    (list_request base_url (.kindDesc k)).url =
      base_url.child ["api", "v1", lower k ++ "s"] ∧
    ∀ ns c, collection_location (.kindDesc k) ≠
      ["api", "v1", "namespaces", ns, c] := by
  constructor
  · rfl
  · intro ns c h
    have hl := congrArg List.length h
    simp [collection_location] at hl

/-- Witness for C6: listing the bare `Pod` kind hits `/api/v1/pods`,
not any namespaced path. -/
theorem list_bare_kind_unnamespaced_witness :
    (list_request ⟨["k8s"]⟩ (.kindDesc "Pod")).url =
      ⟨["k8s", "api", "v1", "pods"]⟩ ∧
    collection_location (.kindDesc "Pod") ≠
      ["api", "v1", "namespaces", "ns1", "pods"] := by
  have h := (list_bare_kind_unnamespaced ⟨["k8s"]⟩ "Pod").1
  have e : (lower "Pod" ++ "s" : String) = "pods" := by decide
  rw [e] at h
  exact ⟨by rw [h]; rfl,
    (list_bare_kind_unnamespaced ⟨["k8s"]⟩ "Pod").2 "ns1" "pods"⟩

/-- C7: the body of a `create` request is exactly the bytes of the
serialized `obj.to_raw()`, held in a `_BytesProducer` whose declared
`length` is the exact byte count of that payload — never an
unknown-length sentinel — and whose `startProducing` writes exactly
those bytes. -/
theorem create_request_body_spec {Raw : Type} (to_raw : KObject → Raw)
    (dumps : Raw → List Nat) (base_url : URL) (obj : KObject) :
    (create_request to_raw dumps base_url obj).method = "POST" ∧
    (create_request to_raw dumps base_url obj).bodyProducer =
      some ⟨dumps (to_raw obj)⟩ ∧
    ∀ p, (create_request to_raw dumps base_url obj).bodyProducer = some p →
      p.startProducing = dumps (to_raw obj) ∧
      p.length = (dumps (to_raw obj)).length := by
  refine ⟨rfl, rfl, fun p hp => ?_⟩
  simp only [create_request, Option.some.injEq] at hp
  subst hp
  exact ⟨rfl, rfl⟩

/-- Witness for C7 at a concrete object and serializer. -/
theorem create_request_body_spec_witness :
    BytesProducer.startProducing ⟨[112, 49]⟩ = [112, 49] ∧
    BytesProducer.length ⟨[112, 49]⟩ = 2 := by
  have h := (create_request_body_spec (fun o : KObject => o.metadata.name)
    (fun s => s.data.map Char.toNat) ⟨[]⟩
    ⟨"Pod", ⟨"p1", some "ns1"⟩, []⟩).2.2 ⟨[112, 49]⟩ (by decide)
  constructor
  · rw [h.1]
    decide
  · rw [h.2]
    decide

/-- C8: `get` reads only the identity fields of its argument (kind,
namespace, name), so two objects agreeing on those — whatever their
other fields — produce the same request and, at a fixed server
response, the same outcome. -/
theorem get_identity_only {Raw Obj : Type}
    (loads : String → Except KubeFailure Raw)
    (object_from_raw : Raw → Except KubeFailure Obj)
    (base_url : URL) (o1 o2 : KObject) (response : Response)
    (hk : o1.kind = o2.kind) (hn : o1.metadata.name = o2.metadata.name)
    (hns : o1.metadata.nspace = o2.metadata.nspace) :
    get_op loads object_from_raw base_url o1 response =
      get_op loads object_from_raw base_url o2 response := by
  simp [get_op, get_request, get_pipeline, object_location,
    collection_location, Resource.kind, hk, hn, hns]

/-- Witness for C8: two pods equal on identity fields but with
different extra fields are addressed and handled identically. -/
theorem get_identity_only_witness :
    get_op (fun s => Except.ok s) (fun s => Except.ok s) ⟨["k8s"]⟩
        ⟨"Pod", ⟨"p1", some "ns1"⟩, [("label", "a")]⟩ ⟨200, "b"⟩ =
      get_op (fun s => Except.ok s) (fun s => Except.ok s) ⟨["k8s"]⟩
        ⟨"Pod", ⟨"p1", some "ns1"⟩, [("label", "z")]⟩ ⟨200, "b"⟩ :=
  get_identity_only (fun s => Except.ok s) (fun s => Except.ok s) ⟨["k8s"]⟩
    ⟨"Pod", ⟨"p1", some "ns1"⟩, [("label", "a")]⟩
    ⟨"Pod", ⟨"p1", some "ns1"⟩, [("label", "z")]⟩ ⟨200, "b"⟩ rfl rfl rfl

/-- C9: `client()` is a pure factory — every call returns a
`_NetworkClient` referencing the same endpoint: the same `base_url` and
the very same agent held by the endpoint handle. -/
theorem client_same_endpoint {Agent : Type} (k : NetworkKubernetes Agent) :
    (NetworkKubernetes.client k).kubernetes.base_url = k.base_url ∧
    (NetworkKubernetes.client k).agent = k.agent ∧
    (NetworkKubernetes.client k).kubernetes = k :=
  ⟨rfl, rfl, rfl⟩

/-- C10: a `delete` whose response has an expected status succeeds with
no result whatever the body holds, and a `delete` never fails with a
decode error — its chain never parses the body as JSON. -/
theorem delete_no_decode_error (response : Response) :
    (response.code ∈ [OK] → delete_pipeline response = Except.ok ()) ∧
    ∀ b, delete_pipeline response ≠
      Except.error (KubeFailure.decodeError b) := by
  constructor
  · intro h
    have h2 : response.code = OK := by simpa using h
    simp [delete_pipeline, check_status, Except.bind, h2]
  · intro b hb
    by_cases h : response.code = OK
    · simp [delete_pipeline, check_status, Except.bind, h] at hb
    · simp [delete_pipeline, check_status, KubernetesError.from_response,
        Except.bind, h] at hb

/-- Witness for C10: a 200 `delete` response whose body is not JSON at
all still completes, and is no decode error. -/
theorem delete_no_decode_error_witness :
    delete_pipeline ⟨200, "not valid json"⟩ = Except.ok () ∧
    delete_pipeline ⟨200, "not valid json"⟩ ≠
      Except.error (KubeFailure.decodeError "not valid json") :=
  ⟨(delete_no_decode_error ⟨200, "not valid json"⟩).1 (by decide),
   (delete_no_decode_error ⟨200, "not valid json"⟩).2 "not valid json"⟩

end Txkube
